import Mathlib

/-!
Verification development for the BFT-RFForensics training slice
(`src/learner/learner.py` and `src/module/agents/dgn_agent.py`).

Numeric tensor entries are modelled as rationals (`ℚ`); flags as `Bool`.
Python exceptions are modelled by an explicit error type, and statements of
the learner are modelled as event traces so that reachability of the
attacker-optimizer step, the target-sync checks and the logging block can be
settled.
-/

namespace BFTRF

/-- The Python exceptions that the learner code can raise. -/
inductive PyErr where
  | nameError
  | attributeError
  | runtimeError
  | fileNotFoundError
  deriving DecidableEq, Repr

/-- Coercion of a 0/1 flag to the rational value a float tensor holds. -/
def b2q (b : Bool) : ℚ := if b then 1 else 0

/-- Source `list_rev_onehot` (learner.py, lines 299–306): walks the input in 2-wide
pairs; pair `i` decodes to `1` exactly when `x[2*i] == 1`, otherwise `0`; a
trailing odd element is never read. -/
def list_rev_onehot : List ℚ → List ℕ
  | a :: _ :: rest => (if a = 1 then 1 else 0) :: list_rev_onehot rest
  | _ => []

/-- Modelled from the spec: `rev_onehot` (imported from
`components.action_selectors`, whose source is not in this slice) is the
one-hot/category decoder, per §6 "pure function mapping a one-hot (or near
one-hot) numeric vector to its argmax category index".  First maximum wins. -/
def rev_onehot (x : List ℚ) : ℕ :=
  match x with
  | [] => 0
  | a :: rest => go rest 1 0 a
where
  go : List ℚ → ℕ → ℕ → ℚ → ℕ
  | [], _, best, _ => best
  | a :: rest, i, best, bv =>
      if bv < a then go rest (i + 1) i a else go rest (i + 1) best bv

/-- The configuration fields consumed by `_parse_input_message`. -/
structure MsgArgs where
  num_malicious : ℕ
  max_view_num : ℕ
  max_seq_num : ℕ
  total_client_vals : ℕ
  n_peers : ℕ
  deriving DecidableEq, Repr

/-- The decoded form of one crafted message, in the order the fields are
appended by `_parse_input_message`. -/
structure ParsedMsg where
  msg_type : ℕ
  sender_id : ℕ
  view_num : ℕ
  seq_num : ℕ
  client_val : ℕ
  receiver_id : ℕ
  certificate : List ℕ
  deriving DecidableEq, Repr

/-- Source `_parse_input_message` (learner.py, lines 232–267): consume the message
vector left-to-right; `msg_input[idx : idx+w]` is `(msg_input.drop idx).take w`
and the final certificate slice `msg_input[idx:]` is `msg_input.drop idx`. -/
def parse_input_message (a : MsgArgs) (msg_input : List ℚ) : ParsedMsg :=
  let num_msg_type := 10
  let i1 := num_msg_type
  let i2 := i1 + a.num_malicious
  let i3 := i2 + a.max_view_num
  let i4 := i3 + a.max_seq_num
  let i5 := i4 + a.total_client_vals
  let i6 := i5 + a.n_peers
  { msg_type := rev_onehot (msg_input.take num_msg_type)
    sender_id := rev_onehot ((msg_input.drop i1).take a.num_malicious)
    view_num := rev_onehot ((msg_input.drop i2).take a.max_view_num)
    seq_num := rev_onehot ((msg_input.drop i3).take a.max_seq_num)
    client_val := rev_onehot ((msg_input.drop i4).take a.total_client_vals)
    receiver_id := rev_onehot ((msg_input.drop i5).take a.n_peers)
    certificate := list_rev_onehot (msg_input.drop i6) }

/-- Closed form of the certificate decoder: element `i` reads only `x[2*i]`
and tests it for exact equality with `1`. -/
theorem lro_spec (x : List ℚ) :
    list_rev_onehot x =
      (List.range (x.length / 2)).map
        (fun i => if x.get? (2 * i) = some 1 then 1 else 0) := by
  induction x using list_rev_onehot.induct with
  | case1 a b rest ih =>
      have hlen : (a :: b :: rest).length / 2 = rest.length / 2 + 1 := by
        simp [List.length_cons]
        omega
      rw [list_rev_onehot, hlen, List.range_succ_eq_map, List.map_cons, ih]
      simp [List.map_map, Function.comp]
      intro i _
      have h2 : 2 * (i + 1) = 2 * i + 1 + 1 := by omega
      simp [h2]
  | case2 x h =>
      cases x with
      | nil => simp [list_rev_onehot]
      | cons a t =>
        cases t with
        | nil => simp [list_rev_onehot]
        | cons b r => exact absurd rfl (h a b r)

/-- The seven fixed-width slices `_parse_input_message` reads, in source
order: message type, sender, view number, sequence number, client value,
receiver, certificate remainder. -/
def segs (a : MsgArgs) (msg : List ℚ) : List (List ℚ) :=
  [msg.take 10,
   (msg.drop 10).take a.num_malicious,
   (msg.drop (10 + a.num_malicious)).take a.max_view_num,
   (msg.drop (10 + a.num_malicious + a.max_view_num)).take a.max_seq_num,
   (msg.drop (10 + a.num_malicious + a.max_view_num + a.max_seq_num)).take
     a.total_client_vals,
   (msg.drop (10 + a.num_malicious + a.max_view_num + a.max_seq_num +
     a.total_client_vals)).take a.n_peers,
   msg.drop (10 + a.num_malicious + a.max_view_num + a.max_seq_num +
     a.total_client_vals + a.n_peers)]

theorem seg_chain {α : Type} (l : List α) (i w : ℕ) :
    (l.drop i).take w ++ l.drop (i + w) = l.drop i := by
  have h := List.take_append_drop w (l.drop i)
  rwa [List.drop_drop] at h

/-- C10: `list_rev_onehot` returns a list of length `⌊len/2⌋` whose element
`i` is `1` exactly when `x[2*i]` equals `1` (so any near-one value decodes to
`0`), and the trailing element of an odd-length input is ignored. -/
theorem c10_list_rev_onehot (x : List ℚ) :
    (list_rev_onehot x).length = x.length / 2 ∧
      list_rev_onehot x =
        (List.range (x.length / 2)).map
          (fun i => if x.get? (2 * i) = some 1 then 1 else 0) := by
  refine ⟨?_, lro_spec x⟩
  rw [lro_spec x]
  simp

/-- C3: for a message vector of exactly the documented total width, the decode
consumes the vector left-to-right in seven fixed-width segments — type (10),
sender (`num_malicious`), view (`max_view_num`), sequence (`max_seq_num`),
client value (`total_client_vals`), receiver (`n_peers`), then the remaining
`2·n_peers` entries as 2-wide per-peer pairs — every element consumed exactly
once (segments concatenate back to the input, with the stated widths), each
non-certificate segment decoded by `rev_onehot` (argmax), and each
certificate pair decoded to `1` exactly when its first entry is `1`. -/
theorem c3_message_decode_segments (a : MsgArgs) (msg : List ℚ)
    (hlen : msg.length = 10 + a.num_malicious + a.max_view_num + a.max_seq_num +
      a.total_client_vals + a.n_peers + 2 * a.n_peers) :
    (segs a msg).flatten = msg ∧
    (segs a msg).map List.length =
      [10, a.num_malicious, a.max_view_num, a.max_seq_num, a.total_client_vals,
       a.n_peers, 2 * a.n_peers] ∧
    parse_input_message a msg =
      { msg_type := rev_onehot ((segs a msg).getD 0 [])
        sender_id := rev_onehot ((segs a msg).getD 1 [])
        view_num := rev_onehot ((segs a msg).getD 2 [])
        seq_num := rev_onehot ((segs a msg).getD 3 [])
        client_val := rev_onehot ((segs a msg).getD 4 [])
        receiver_id := rev_onehot ((segs a msg).getD 5 [])
        certificate := list_rev_onehot ((segs a msg).getD 6 []) } ∧
    list_rev_onehot ((segs a msg).getD 6 []) =
      (List.range a.n_peers).map
        (fun i => if ((segs a msg).getD 6 []).get? (2 * i) = some 1 then 1
          else 0) := by
  refine ⟨?_, ?_, rfl, ?_⟩
  · simp only [segs, List.flatten_cons, List.flatten_nil, List.append_nil]
    rw [seg_chain msg (10 + a.num_malicious + a.max_view_num + a.max_seq_num +
          a.total_client_vals) a.n_peers,
        seg_chain msg (10 + a.num_malicious + a.max_view_num + a.max_seq_num)
          a.total_client_vals,
        seg_chain msg (10 + a.num_malicious + a.max_view_num) a.max_seq_num,
        seg_chain msg (10 + a.num_malicious) a.max_view_num,
        seg_chain msg 10 a.num_malicious,
        List.take_append_drop]
  · simp only [segs, List.map, List.length_take, List.length_drop,
      List.cons.injEq, and_true, hlen]
    omega
  · have h6 : ((segs a msg).getD 6 []).length = 2 * a.n_peers := by
      simp [segs, hlen]
    have h2 : ((segs a msg).getD 6 []).length / 2 = a.n_peers := by
      rw [h6]; omega
    rw [lro_spec, h2]

/-- A concrete configuration: 1 malicious peer, view/sequence widths 2,
1 client value, 2 peers, total width 10+1+2+2+1+2+4 = 22. -/
def c3Args : MsgArgs := ⟨1, 2, 2, 1, 2⟩

/-- A concrete 22-wide message vector: type index 3, sender 0, view 1, seq 0,
value 0, receiver 1, certificate pairs (1,0) and (0,1). -/
def c3Msg : List ℚ :=
  [0, 0, 0, 1, 0, 0, 0, 0, 0, 0, 1, 0, 1, 1, 0, 1, 0, 1, 1, 0, 0, 1]

theorem c3_witness :
    c3Msg.length = 10 + c3Args.num_malicious + c3Args.max_view_num +
      c3Args.max_seq_num + c3Args.total_client_vals + c3Args.n_peers +
      2 * c3Args.n_peers ∧
    ((segs c3Args c3Msg).flatten = c3Msg ∧
     (segs c3Args c3Msg).map List.length =
       [10, c3Args.num_malicious, c3Args.max_view_num, c3Args.max_seq_num,
        c3Args.total_client_vals, c3Args.n_peers, 2 * c3Args.n_peers] ∧
     parse_input_message c3Args c3Msg =
       { msg_type := rev_onehot ((segs c3Args c3Msg).getD 0 [])
         sender_id := rev_onehot ((segs c3Args c3Msg).getD 1 [])
         view_num := rev_onehot ((segs c3Args c3Msg).getD 2 [])
         seq_num := rev_onehot ((segs c3Args c3Msg).getD 3 [])
         client_val := rev_onehot ((segs c3Args c3Msg).getD 4 [])
         receiver_id := rev_onehot ((segs c3Args c3Msg).getD 5 [])
         certificate := list_rev_onehot ((segs c3Args c3Msg).getD 6 []) } ∧
     list_rev_onehot ((segs c3Args c3Msg).getD 6 []) =
       (List.range c3Args.n_peers).map
         (fun i => if ((segs c3Args c3Msg).getD 6 []).get? (2 * i) = some 1
           then 1 else 0)) :=
  ⟨by decide, c3_message_decode_segments c3Args c3Msg (by decide)⟩

/-! ## Validity-mask construction (train, learner.py lines 50–52)

`mask = batch["filled"][:, :-1]` copied, then the in-place update
`mask[:, 1:] = mask[:, 1:] * (1 - terminated[:, :-1])`, modelled per episode
row as a list transformation (`filled` and `terminated` already sliced to
length `T-1`). -/
def buildMask (filled terminated : List ℚ) : List ℚ :=
  match filled with
  | [] => []
  | f :: rest => f :: List.zipWith (fun fj tj => fj * (1 - tj)) rest terminated

/-- C4 as stated: within each episode every step at or after the first step
whose terminated flag is set has mask value 0, except the mask's first
column, which always equals the filled flag of step 0. -/
def c4ClaimStatement : Prop :=
  ∀ (filled terminated : List ℚ), filled.length = terminated.length →
    (∀ x ∈ filled, x = 0 ∨ x = 1) → (∀ x ∈ terminated, x = 0 ∨ x = 1) →
    ∀ k j : ℕ, terminated.get? k = some 1 →
      (∀ k' : ℕ, k' < k → terminated.get? k' ≠ some 1) →
      1 ≤ j → k ≤ j → j < filled.length →
      (buildMask filled terminated).get? j = some 0

/-- C4 counterexample: with `filled = [1,1,1]` and `terminated = [1,0,0]`
(termination at step 0) the built mask is `[1,0,1]`: step 2 lies after the
first terminated step yet keeps mask value 1, because the code only
multiplies step `j` by `1 - terminated[j-1]`. -/
theorem c4_counterexample : ¬ c4ClaimStatement := by
  intro h
  have := h [1, 1, 1] [1, 0, 0] rfl (by intro x hx; fin_cases hx <;> simp)
    (by intro x hx; fin_cases hx <;> simp) 0 2 rfl
    (by intro k' hk'; omega) (by norm_num) (by norm_num) (by norm_num)
  rw [show buildMask [1, 1, 1] [1, 0, 0] = [1, 0, 1] by
        simp [buildMask]] at this
  simp at this

/-- C4 amended: the mask's first column equals the filled flag of step 0, and
each later column `j ≥ 1` equals `filled[j] * (1 - terminated[j-1])` — so a
step is zeroed exactly when it is unfilled or the *immediately preceding*
step is terminated (steps further past a terminated step are not zeroed by
this construction). -/
theorem c4_mask_formula (filled terminated : List ℚ)
    (hlen : filled.length = terminated.length) :
    buildMask filled terminated =
      (List.range filled.length).map
        (fun j => if j = 0 then filled.getD 0 0
          else filled.getD j 0 * (1 - terminated.getD (j - 1) 0)) := by
  match filled, terminated, hlen with
  | [], t, _ =>
      simp [buildMask]
  | f :: rest, t, hlen =>
      rw [buildMask]
      have hle : rest.length ≤ t.length := by
        simp at hlen; omega
      rw [List.length_cons, List.range_succ_eq_map, List.map_cons]
      refine congrArg₂ List.cons (by simp) ?_
      rw [List.map_map]
      clear hlen
      induction rest generalizing t with
      | nil => simp
      | cons a rest ih =>
          match t, hle with
          | b :: t, hle =>
              rw [List.zipWith_cons_cons, List.length_cons,
                List.range_succ_eq_map, List.map_cons, List.map_map]
              refine congrArg₂ List.cons (by simp) ?_
              have hle' : rest.length ≤ t.length := by simp at hle; omega
              rw [ih t hle']
              refine List.map_congr_left ?_
              intro i _
              simp [Function.comp]

theorem c4_witness :
    ([(1 : ℚ), 1, 0].length = [(0 : ℚ), 1, 1].length) ∧
    buildMask [(1 : ℚ), 1, 0] [(0 : ℚ), 1, 1] =
      (List.range ([(1 : ℚ), 1, 0].length)).map
        (fun j => if j = 0 then [(1 : ℚ), 1, 0].getD 0 0
          else [(1 : ℚ), 1, 0].getD j 0 * (1 - [(0 : ℚ), 1, 1].getD (j - 1) 0)) :=
  ⟨rfl, c4_mask_formula [1, 1, 0] [0, 1, 1] rfl⟩

/-! ## Graph-attention block (dgn_agent.py, `AttModel.forward`, lines 29–40)

One fully connected layer `y = W x + b`, its rectified activation, the
query/key projections and the pre-softmax attention matrix
`torch.mul(torch.bmm(q, k), mask) - 9e15 * (1 - mask)`.  The softmax itself
is a fixed strictly monotone normalization of these scores; the mask's whole
effect on the attention weights is through the score matrix modelled here. -/

/-- One `nn.Linear` layer over rationals. -/
structure Lin where
  w : ℕ → ℕ → ℚ
  b : ℕ → ℚ

/-- Apply a linear layer with input width `din`: output `o` is
`b o + Σ_i w o i * x i`. -/
def Lin.app (din : ℕ) (L : Lin) (x : ℕ → ℚ) (o : ℕ) : ℚ :=
  ((List.range din).map (fun i => L.w o i * x i)).sum + L.b o

/-- Rectified linear activation `F.relu` over rationals. -/
def relu (q : ℚ) : ℚ := if q < 0 then 0 else q

/-- The three projection layers of `AttModel` used by the score computation
(`fcv` feeds the aggregation after the softmax and does not enter the
scores). -/
structure AttParams where
  fcq : Lin
  fck : Lin

/-- Row `i` of `q = F.relu(self.fcq(x))`. -/
def attQ (p : AttParams) (din : ℕ) (x : ℕ → ℕ → ℚ) (i h : ℕ) : ℚ :=
  relu (Lin.app din p.fcq (x i) h)

/-- Row `j` of `k = F.relu(self.fck(x))` (before the permute). -/
def attK (p : AttParams) (din : ℕ) (x : ℕ → ℕ → ℚ) (j h : ℕ) : ℚ :=
  relu (Lin.app din p.fck (x j) h)

/-- Entry `(i,j)` of `torch.bmm(q, k.permute(0,2,1))`: the pairwise
query-key dot product over the hidden width. -/
def attDot (p : AttParams) (din hidden : ℕ) (x : ℕ → ℕ → ℚ) (i j : ℕ) : ℚ :=
  ((List.range hidden).map (fun h => attQ p din x i h * attK p din x j h)).sum

/-- The constant `9e15` of the masking bias. -/
def nineE15 : ℚ := 9 * 10 ^ 15

/-- Entry `(i,j)` of the pre-softmax score
`torch.mul(torch.bmm(q, k), mask) - 9e15 * (1 - mask)`. -/
def attScore (p : AttParams) (din hidden : ℕ) (x : ℕ → ℕ → ℚ)
    (mask : ℕ → ℕ → ℚ) (i j : ℕ) : ℚ :=
  attDot p din hidden x i j * mask i j - nineE15 * (1 - mask i j)

/-- The score formula C5 describes: raw logits are the query-key dot product
and the mask acts only through the additive `-9e15 * (1 - mask)` bias. -/
def attScoreClaimed (p : AttParams) (din hidden : ℕ) (x : ℕ → ℕ → ℚ)
    (mask : ℕ → ℕ → ℚ) (i j : ℕ) : ℚ :=
  attDot p din hidden x i j - nineE15 * (1 - mask i j)

/-- Concrete 1-dimensional weights: `fcq = fck = identity`. -/
def c5Params : AttParams := ⟨⟨fun _ _ => 1, fun _ => 0⟩, ⟨fun _ _ => 1, fun _ => 0⟩⟩

/-- Concrete embeddings: every agent's single feature is `1`. -/
def c5X : ℕ → ℕ → ℚ := fun _ _ => 1

/-- Concrete mask: agent 0 may not attend to agent 1. -/
def c5Mask : ℕ → ℕ → ℚ := fun i j => if i = 0 ∧ j = 1 then 0 else 1

/-- C5 counterexample: at the masked pair (0,1) with a nonzero query-key dot
product, the code's pre-softmax score is exactly `-9e15` (the logit is also
*multiplied* by the mask), not the claimed `dot - 9e15`. -/
theorem c5_counterexample :
    attScore c5Params 1 1 c5X c5Mask 0 1 = -nineE15 ∧
    attScoreClaimed c5Params 1 1 c5X c5Mask 0 1 = 1 - nineE15 ∧
    attScore c5Params 1 1 c5X c5Mask 0 1 ≠
      attScoreClaimed c5Params 1 1 c5X c5Mask 0 1 := by
  refine ⟨?_, ?_, ?_⟩ <;>
    simp [attScore, attScoreClaimed, attDot, attQ, attK, Lin.app, relu,
      c5Params, c5X, c5Mask, nineE15] <;> norm_num

/-- C5 amended: the mask is applied both multiplicatively and additively, so
for a masked pair the pre-softmax score is exactly `-9e15` whatever the
inputs, an allowed pair (mask 1) keeps its raw query-key dot product, and
perturbing only a masked-out agent `a`'s input leaves every pre-softmax
score in row `i` of the masking agent unchanged. -/
theorem c5_score_mask (p : AttParams) (din hidden : ℕ)
    (x x' : ℕ → ℕ → ℚ) (mask : ℕ → ℕ → ℚ) (i a : ℕ)
    (hmask : mask i a = 0) (hia : i ≠ a)
    (hx : ∀ b : ℕ, b ≠ a → x b = x' b) :
    attScore p din hidden x mask i a = -nineE15 ∧
    (∀ j : ℕ, mask i j = 1 →
      attScore p din hidden x mask i j = attDot p din hidden x i j) ∧
    (∀ j : ℕ, attScore p din hidden x mask i j =
      attScore p din hidden x' mask i j) := by
  have hdot : ∀ j : ℕ, j ≠ a → attDot p din hidden x i j =
      attDot p din hidden x' i j := by
    intro j hj
    unfold attDot attQ attK
    rw [hx i hia, hx j hj]
  refine ⟨?_, ?_, ?_⟩
  · simp [attScore, hmask]
  · intro j hj
    simp [attScore, hj]
  · intro j
    by_cases hj : j = a
    · subst hj
      simp [attScore, hmask]
    · simp [attScore, hdot j hj]

/-- Embeddings `c5X` with agent 1's input perturbed. -/
def c5X' : ℕ → ℕ → ℚ := fun b f => if b = 1 then 2 else c5X b f

theorem c5_witness :
    c5Mask 0 1 = 0 ∧ (0 : ℕ) ≠ 1 ∧
    (∀ b : ℕ, b ≠ 1 → c5X b = c5X' b) ∧
    (attScore c5Params 1 1 c5X c5Mask 0 1 = -nineE15 ∧
     (∀ j : ℕ, c5Mask 0 j = 1 →
       attScore c5Params 1 1 c5X c5Mask 0 j = attDot c5Params 1 1 c5X 0 j) ∧
     (∀ j : ℕ, attScore c5Params 1 1 c5X c5Mask 0 j =
       attScore c5Params 1 1 c5X' c5Mask 0 j)) := by
  refine ⟨rfl, by norm_num, by intro b hb; funext f; simp [c5X', hb], ?_⟩
  exact c5_score_mask c5Params 1 1 c5X c5X' c5Mask 0 1 rfl (by norm_num)
    (by intro b hb; funext f; simp [c5X', hb])

/-! ## `DGNAgent._get_input_shape` (dgn_agent.py, lines 71–79)

`DGNAgent.__init__` sets only `self.args` before calling
`_get_input_shape`; the method nevertheless reads `self.n_agents` in the
`obs_agent_id` and `type == "pq"` branches, and `nn.Module.__getattr__`
raises `AttributeError` for that missing attribute. -/

structure AgentArgs where
  obs_last_action : Bool
  obs_agent_id : Bool
  type : String
  n_agents : ℕ
  deriving DecidableEq, Repr

structure AgentScheme where
  obs_vshape : ℕ
  actions_onehot_vshape : ℕ
  deriving DecidableEq, Repr

/-- Faithful `_get_input_shape`: branches taken in source order; the two
branches that read the undefined `self.n_agents` raise. -/
def get_input_shape (args : AgentArgs) (scheme : AgentScheme) :
    Except PyErr ℕ :=
  let s0 := scheme.obs_vshape
  let s1 := if args.obs_last_action then s0 + scheme.actions_onehot_vshape
    else s0
  if args.obs_agent_id then Except.error PyErr.attributeError
  else if args.type = "pq" then Except.error PyErr.attributeError
  else Except.ok s1

/-- Modelled from the spec: the input-width derivation §4.2/§8.9 intends —
base observation width, plus the one-hot action width when `obs_last_action`,
plus the agent count when `obs_agent_id`, plus `2·n_agents²` for the "pq"
variant, composing additively (this is what the code would compute had it
read `self.args.n_agents`, as `DGNAgent.forward` line 64 does). -/
def get_input_shape_spec (args : AgentArgs) (scheme : AgentScheme) : ℕ :=
  scheme.obs_vshape +
    (if args.obs_last_action then scheme.actions_onehot_vshape else 0) +
    (if args.obs_agent_id then args.n_agents else 0) +
    (if args.type = "pq" then args.n_agents * args.n_agents * 2 else 0)

/-- C6: the code computes the claimed additive width only when both the
`obs_agent_id` and the `"pq"` additions are switched off; whenever
`obs_agent_id` is set or `type = "pq"`, construction raises `AttributeError`
(undefined `self.n_agents`) instead of adding the documented features. -/
theorem c6_input_shape_attribute_error (args : AgentArgs)
    (scheme : AgentScheme) :
    get_input_shape args scheme =
      if args.obs_agent_id ∨ args.type = "pq" then
        Except.error PyErr.attributeError
      else Except.ok (get_input_shape_spec args scheme) := by
  unfold get_input_shape get_input_shape_spec
  by_cases h1 : args.obs_agent_id <;>
    by_cases h2 : args.type = "pq" <;>
      by_cases h3 : args.obs_last_action <;>
        simp [h1, h2, h3]

/-! ## Target-sync cadence state (learner.py, lines 23–24 and 112–118)

`__init__` initializes `critic_training_steps = 0` and
`last_target_update_episode = 0` but never `last_target_update_step`;
the step-keyed check `(self.critic_training_steps -
self.last_target_update_step) / self.args.target_update_interval >= 1.0`
therefore reads an attribute that does not exist.  `None` models "attribute
never assigned". -/

structure SyncState where
  critic_training_steps : ℤ
  last_target_update_step : Option ℤ
  last_target_update_episode : ℤ
  deriving DecidableEq, Repr

/-- The sync-relevant state `SeparateLearner.__init__` produces. -/
def learner_init_state : SyncState :=
  { critic_training_steps := 0
    last_target_update_step := none
    last_target_update_episode := 0 }

/-- The step-keyed cadence check of `train` (line 112). -/
def step_sync_check (s : SyncState) (target_update_interval : ℚ) :
    Except PyErr Bool :=
  match s.last_target_update_step with
  | none => Except.error PyErr.attributeError
  | some l =>
      Except.ok
        (decide (((s.critic_training_steps - l : ℤ) : ℚ) /
          target_update_interval ≥ 1))

/-- C7: the step-keyed cadence check can never fire as claimed — evaluated on
the state `__init__` builds, it raises `AttributeError`, because
`last_target_update_step` is never initialized (and per C1 the check is not
even reached). -/
theorem c7_step_sync_uninitialized (target_update_interval : ℚ) :
    step_sync_check learner_init_state target_update_interval =
      Except.error PyErr.attributeError := rfl

/-! ## Checkpoint persistence (learner.py, lines 280–296)

Files are modelled as `(directory, filename)` keys mapping to an abstract
parameter/optimizer snapshot (`ℕ`); `th.save` appends an entry, `th.load`
looks a key up and fails with `FileNotFoundError` when absent.  The
controller's own `save_models`/`load_models` delegation is outside this
slice and touches none of the five learner-owned files. -/

structure LearnerCkpt where
  critic : ℕ
  target_critic : ℕ
  identifier_opt : ℕ
  attacker_opt : ℕ
  critic_opt : ℕ
  deriving DecidableEq, Repr

/-- Source `save_models` (lines 280–286): the five learner-owned files, written in
source order. -/
def save_models (path : String) (s : LearnerCkpt) :
    List ((String × String) × ℕ) :=
  [((path, "critic.th"), s.critic),
   ((path, "tar_critic.th"), s.target_critic),
   ((path, "identifier_critic_opt.th"), s.identifier_opt),
   ((path, "critic_opt.th"), s.critic_opt),
   ((path, "attacker_opt.th"), s.attacker_opt)]

/-- Loading `th.load`: first entry with the requested key, else `FileNotFoundError`. -/
def th_load (disk : List ((String × String) × ℕ)) (f : String × String) :
    Except PyErr ℕ :=
  match disk.find? (fun e => decide (e.1 = f)) with
  | some e => Except.ok e.2
  | none => Except.error PyErr.fileNotFoundError

/-- Source `load_models` (lines 288–296): reads, in source order, `critic.th`,
`tar_critic.th`, then the optimizer states — note the identifier optimizer is
read from `identifier_opt.th`. -/
def load_models (path : String) (disk : List ((String × String) × ℕ)) :
    Except PyErr LearnerCkpt := do
  let c ← th_load disk (path, "critic.th")
  let tc ← th_load disk (path, "tar_critic.th")
  let io ← th_load disk (path, "identifier_opt.th")
  let ao ← th_load disk (path, "attacker_opt.th")
  let co ← th_load disk (path, "critic_opt.th")
  pure { critic := c, target_critic := tc, identifier_opt := io,
         attacker_opt := ao, critic_opt := co }

/-- C2: the save/load round trip is not a mirror image — `save_models` writes
the identifier optimizer to `identifier_critic_opt.th` while `load_models`
reads `identifier_opt.th`, so loading a directory that holds exactly what
save wrote fails with `FileNotFoundError` instead of restoring the state. -/
theorem c2_load_after_save_fails (path : String) (s : LearnerCkpt) :
    load_models path (save_models path s) =
      Except.error PyErr.fileNotFoundError := by
  simp [load_models, save_models, th_load, List.find?, bind, Except.bind,
    Prod.ext_iff]

/-! ## Critic backward-time loop (`_train_critic`, learner.py lines 127–183)

The loop body is modelled as an event trace.  At each step `t` (walked from
`T-2` down to `0`): if `mask_t.sum() == 0` the step is skipped (`continue`,
line 156); otherwise the online critic forward runs (line 159), then line
165 broadcasts the `[bs,2]` TD error against the `[bs,n_agents]` mask — a
shape error unless `n_agents ∈ {1,2}` — then the loss is normalized by
`mask_t.sum()` (line 168), the optimizer steps (line 173), the step counter
increments (line 174), four statistics are appended (lines 176–180, each of
lines 179–180 dividing by the mask sum again), and line 181 then reads the
undefined name `targets_t`, raising `NameError` before the fifth append. -/

inductive CriticEvent where
  | skip (t : ℕ)
  | forward (t : ℕ)
  | maskDiv (t : ℕ)
  | optStep (t : ℕ)
  | counterInc (t : ℕ)
  | logStat (t : ℕ) (name : String)
  deriving DecidableEq, Repr

/-- Events of one executed (non-skipped) loop body, in source order, up to
the `NameError` at line 181. -/
def criticStepEvents (t : ℕ) : List CriticEvent :=
  [CriticEvent.forward t, CriticEvent.maskDiv t, CriticEvent.optStep t,
   CriticEvent.counterInc t,
   CriticEvent.logStat t "critic_loss", CriticEvent.logStat t "critic_grad_norm",
   CriticEvent.maskDiv t, CriticEvent.logStat t "td_error_abs",
   CriticEvent.maskDiv t, CriticEvent.logStat t "q_taken_mean"]

/-- The backward loop over the given step order: trace of events plus the
exception that ends the call, if any. -/
def criticLoop (n_agents : ℕ) (maskSum : ℕ → ℚ) :
    List ℕ → List CriticEvent × Option PyErr
  | [] => ([], none)
  | t :: ts =>
      if maskSum t = 0 then
        let r := criticLoop n_agents maskSum ts
        (CriticEvent.skip t :: r.1, r.2)
      else if n_agents = 1 ∨ n_agents = 2 then
        (criticStepEvents t, some PyErr.nameError)
      else
        ([CriticEvent.forward t], some PyErr.runtimeError)

/-- C8: a step whose validity-mask sum is zero contributes no online-critic
forward pass, no division by its (zero) mask sum, no optimizer step and no
critic-step-counter increment to the backward loop, whatever the other
steps do. -/
theorem c8_zero_mask_step_skipped (n_agents : ℕ) (maskSum : ℕ → ℚ)
    (ts : List ℕ) (t : ℕ) (h : maskSum t = 0) :
    CriticEvent.forward t ∉ (criticLoop n_agents maskSum ts).1 ∧
    CriticEvent.maskDiv t ∉ (criticLoop n_agents maskSum ts).1 ∧
    CriticEvent.optStep t ∉ (criticLoop n_agents maskSum ts).1 ∧
    CriticEvent.counterInc t ∉ (criticLoop n_agents maskSum ts).1 := by
  induction ts with
  | nil => simp [criticLoop]
  | cons t' ts ih =>
      by_cases h0 : maskSum t' = 0
      · simp only [criticLoop, if_pos h0]
        refine ⟨?_, ?_, ?_, ?_⟩ <;> simp [ih]
      · have hne : t' ≠ t := fun he => h0 (he ▸ h)
        simp only [criticLoop, if_neg h0]
        by_cases h2 : n_agents = 1 ∨ n_agents = 2 <;>
          simp [h2, criticStepEvents, hne] <;> omega

theorem c8_witness :
    (fun n : ℕ => if n = 0 then (0 : ℚ) else 1) 0 = 0 ∧
    (CriticEvent.forward 0 ∉
        (criticLoop 2 (fun n => if n = 0 then (0 : ℚ) else 1) [2, 1, 0]).1 ∧
     CriticEvent.maskDiv 0 ∉
        (criticLoop 2 (fun n => if n = 0 then (0 : ℚ) else 1) [2, 1, 0]).1 ∧
     CriticEvent.optStep 0 ∉
        (criticLoop 2 (fun n => if n = 0 then (0 : ℚ) else 1) [2, 1, 0]).1 ∧
     CriticEvent.counterInc 0 ∉
        (criticLoop 2 (fun n => if n = 0 then (0 : ℚ) else 1) [2, 1, 0]).1) :=
  ⟨rfl, c8_zero_mask_step_skipped 2 (fun n => if n = 0 then (0 : ℚ) else 1)
    [2, 1, 0] 0 rfl⟩

/-- The statistic names appended by a trace. -/
def logNames (es : List CriticEvent) : List String :=
  es.filterMap (fun e => match e with
    | CriticEvent.logStat _ s => some s
    | _ => none)

/-- C9: a non-skipped step of the backward loop appends only *four*
statistics — loss, gradient norm, absolute TD error and mean taken Q — and
then dies with `NameError` on the undefined `targets_t` before the target
mean (the claimed fifth statistic) is ever recorded.  Shown on a loop whose
step 1 is the single valid step. -/
theorem c9_four_stats_then_name_error :
    (criticLoop 2 (fun t => if t = 1 then 1 else 0) [2, 1, 0]).2 =
      some PyErr.nameError ∧
    logNames (criticLoop 2 (fun t => if t = 1 then 1 else 0) [2, 1, 0]).1 =
      ["critic_loss", "critic_grad_norm", "td_error_abs", "q_taken_mean"] := by
  constructor <;> rfl

/-! ## `train` (learner.py, lines 41–125), as an event trace

Straight-line phases, sequenced so that a raised exception discards
everything after it:
* line 49 `_parse_attacker_actions`: line 191 reshapes the recorded
  actions with `actions.view(bs, t_len, total_msgs_num, -1)`; when the batch
  is empty (`bs = 0`), has no usable step (`max_seq_length ≤ 1`) or has no
  message slot (`num_malicious * max_message_num_per_round = 0`), the shape
  has a zero dimension, so the inferred `-1` is ambiguous for a 0-element
  tensor and the shape is invalid for a nonempty one — either way a
  `RuntimeError`;
* line 57 `_train_critic` (the backward loop modelled by `criticLoop`,
  with `mask_t.sum()` over the mask column repeated to agent width);
* lines 59–83 identifier phase: when `T - 1 ≥ 2` the multiply at line 79
  broadcasts `[bs·(T-1), 1]` against `[bs, T-1]` (or the later mask
  multiply), a shape `RuntimeError`; with a single usable step the loss is
  formed (0/0 = NaN, no exception) and the identifier optimizer steps;
* line 87 `mask.clnoe()` — `AttributeError` (misspelled `clone`);
* line 110 attacker optimizer step, line 112 step-keyed sync check (itself
  an `AttributeError` on the uninitialized counter, were it reached),
  line 116 episode-keyed sync check, line 120 metric logging. -/

structure TrainBatch where
  bs : ℕ
  max_seq_length : ℕ
  filled : ℕ → ℕ → Bool
  terminated : ℕ → ℕ → Bool

structure TrainArgs where
  n_agents : ℕ
  num_malicious : ℕ
  max_message_num_per_round : ℕ

/-- Row `b` of the validity mask of `train` (lines 50–52), via `buildMask`
on the `[:-1]`-sliced flags. -/
def rowMask (bt : TrainBatch) (b : ℕ) : List ℚ :=
  buildMask
    ((List.range (bt.max_seq_length - 1)).map (fun t => b2q (bt.filled b t)))
    ((List.range (bt.max_seq_length - 1)).map (fun t => b2q (bt.terminated b t)))

/-- The value `mask_t.sum()` at step `t`: the mask column summed over the batch and
repeated out to agent width (line 54 `repeat` and line 154 `expand`). -/
def criticMaskSum (n_agents : ℕ) (bt : TrainBatch) (t : ℕ) : ℚ :=
  (n_agents : ℚ) *
    (((List.range bt.bs).map (fun b => (rowMask bt b).getD t 0)).sum)

inductive TrainEvent where
  | critic (e : CriticEvent)
  | identifierOptStep
  | attackerOptStep
  | stepSyncCheck
  | episodeSyncCheck
  | logMetrics
  deriving DecidableEq, Repr

/-- Sequencing with exception propagation: once a phase raises, later
phases contribute nothing. -/
def pseq (a b : List TrainEvent × Option PyErr) :
    List TrainEvent × Option PyErr :=
  match a.2 with
  | none => (a.1 ++ b.1, b.2)
  | some e => (a.1, some e)

theorem pseq_none {a : List TrainEvent × Option PyErr}
    (b : List TrainEvent × Option PyErr) (h : a.2 = none) :
    pseq a b = (a.1 ++ b.1, b.2) := by
  simp [pseq, h]

theorem pseq_some {a : List TrainEvent × Option PyErr} {e : PyErr}
    (b : List TrainEvent × Option PyErr) (h : a.2 = some e) :
    pseq a b = (a.1, some e) := by
  simp [pseq, h]

theorem pseq_nil (b : List TrainEvent × Option PyErr) :
    pseq ([], none) b = b := by
  simp [pseq]

/-- Line 49 (`_parse_attacker_actions`, whose line 191 `view` with an
inferred `-1` rejects any shape with a zero dimension). -/
def parsePhase (args : TrainArgs) (bt : TrainBatch) :
    List TrainEvent × Option PyErr :=
  if bt.bs = 0 ∨ bt.max_seq_length ≤ 1 ∨
      args.num_malicious * args.max_message_num_per_round = 0 then
    ([], some PyErr.runtimeError)
  else ([], none)

/-- Line 57: the critic's backward loop, walked from `T-2` down to `0`. -/
def criticPhase (args : TrainArgs) (bt : TrainBatch) :
    List TrainEvent × Option PyErr :=
  let r := criticLoop args.n_agents (criticMaskSum args.n_agents bt)
    ((List.range (bt.max_seq_length - 1)).reverse)
  (r.1.map TrainEvent.critic, r.2)

/-- Lines 59–83: reached only when every step was mask-skipped; the line-79
broadcast is shape-consistent only when `T - 1 = 1`. -/
def identifierPhase (bt : TrainBatch) : List TrainEvent × Option PyErr :=
  if 2 ≤ bt.max_seq_length - 1 then ([], some PyErr.runtimeError)
  else ([TrainEvent.identifierOptStep], none)

/-- The whole of `train` as a trace. -/
def trainRun (args : TrainArgs) (bt : TrainBatch) :
    List TrainEvent × Option PyErr :=
  pseq (parsePhase args bt)
    (pseq (criticPhase args bt)
      (pseq (identifierPhase bt)
        (pseq ([], some PyErr.attributeError)
          (pseq ([TrainEvent.attackerOptStep], none)
            (pseq ([TrainEvent.stepSyncCheck], some PyErr.attributeError)
              (pseq ([TrainEvent.episodeSyncCheck], none)
                ([TrainEvent.logMetrics], none)))))))

theorem any_rev (l : List ℕ) (p : ℕ → Bool) : l.reverse.any p = l.any p := by
  rw [Bool.eq_iff_iff]
  simp only [List.any_eq_true, List.mem_reverse]

theorem criticLoop_snd (n_agents : ℕ) (maskSum : ℕ → ℚ) (ts : List ℕ) :
    (criticLoop n_agents maskSum ts).2 =
      if ts.any (fun t => !(decide (maskSum t = 0))) then
        some (if n_agents = 1 ∨ n_agents = 2 then PyErr.nameError
          else PyErr.runtimeError)
      else none := by
  induction ts with
  | nil => rfl
  | cons t ts ih =>
      by_cases h0 : maskSum t = 0
      · simp [criticLoop, h0, ih]
      · by_cases h2 : n_agents = 1 ∨ n_agents = 2 <;>
          simp [criticLoop, h0, h2]

/-- C1 as stated requires: whenever no time step has a nonzero mask sum,
the uncaught exception is an `AttributeError` (the `clnoe` call).  A batch
of two completely unfilled episodes with `max_seq_length = 3` refutes this:
every mask sum is zero, yet the call dies earlier with a shape
`RuntimeError` at the identifier loss (line 79), never reaching `clnoe`. -/
theorem c1_counterexample :
    (∀ t, criticMaskSum 2 ⟨2, 3, fun _ _ => false, fun _ _ => false⟩ t = 0) ∧
    (trainRun ⟨2, 1, 1⟩ ⟨2, 3, fun _ _ => false, fun _ _ => false⟩).2 =
      some PyErr.runtimeError ∧
    PyErr.runtimeError ≠ PyErr.attributeError := by
  have hrow : ∀ b t,
      (rowMask ⟨2, 3, fun _ _ => false, fun _ _ => false⟩ b).getD t 0 = 0 := by
    intro b t
    show (buildMask [0, 0] [0, 0]).getD t 0 = 0
    rw [show buildMask [0, 0] [0, 0] = [0, 0] by simp [buildMask]]
    match t with
    | 0 => rfl
    | 1 => rfl
    | n + 2 => rfl
  have hms : ∀ t,
      criticMaskSum 2 ⟨2, 3, fun _ _ => false, fun _ _ => false⟩ t = 0 := by
    intro t
    unfold criticMaskSum
    rw [show List.range 2 = [0, 1] from rfl]
    simp only [List.map_cons, List.map_nil, List.sum_cons, List.sum_nil]
    rw [hrow 0 t, hrow 1 t]
    norm_num
  refine ⟨hms, ?_, by decide⟩
  have hloop : criticLoop 2
      (criticMaskSum 2 ⟨2, 3, fun _ _ => false, fun _ _ => false⟩)
      [1, 0] = ([CriticEvent.skip 1, CriticEvent.skip 0], none) := by
    simp [criticLoop, hms]
  unfold trainRun criticPhase
  rw [show (List.range (3 - 1)).reverse = [1, 0] from rfl, hloop]
  rfl

/-- C1 amended: `train` raises an uncaught exception on every call, so the
attacker optimizer step, both target-synchronization checks and the
metric-logging block are always unreachable.  The exception is: a
`RuntimeError` at the action reshape (line 191) for a degenerate batch (no
episode, no usable step, or no message slot — the zero dimension makes the
inferred `-1` ambiguous or the shape invalid); otherwise, when some step has a nonzero
validity-mask sum, the `NameError` on `targets_t` in the critic's backward
loop (given an agent width of 1 or 2 — any other width dies earlier in the
same loop with a broadcast `RuntimeError`); otherwise an `AttributeError`
on `clnoe` when exactly one usable step exists, and a broadcast
`RuntimeError` in the identifier loss when more than one does. -/
theorem c1_train_always_raises (args : TrainArgs) (bt : TrainBatch) :
    (trainRun args bt).2 = some (
      if bt.bs = 0 ∨ bt.max_seq_length ≤ 1 ∨
          args.num_malicious * args.max_message_num_per_round = 0 then
        PyErr.runtimeError
      else if (List.range (bt.max_seq_length - 1)).any
          (fun t => !(decide (criticMaskSum args.n_agents bt t = 0))) then
        if args.n_agents = 1 ∨ args.n_agents = 2 then PyErr.nameError
        else PyErr.runtimeError
      else if 2 ≤ bt.max_seq_length - 1 then PyErr.runtimeError
      else PyErr.attributeError) ∧
    TrainEvent.attackerOptStep ∉ (trainRun args bt).1 ∧
    TrainEvent.stepSyncCheck ∉ (trainRun args bt).1 ∧
    TrainEvent.episodeSyncCheck ∉ (trainRun args bt).1 ∧
    TrainEvent.logMetrics ∉ (trainRun args bt).1 := by
  by_cases hp : bt.bs = 0 ∨ bt.max_seq_length ≤ 1 ∨
      args.num_malicious * args.max_message_num_per_round = 0
  · have h1 : parsePhase args bt = ([], some PyErr.runtimeError) := by
      unfold parsePhase
      rw [if_pos hp]
    have h2 : trainRun args bt = ([], some PyErr.runtimeError) := by
      unfold trainRun
      rw [h1, pseq_some _ rfl]
    refine ⟨?_, ?_, ?_, ?_, ?_⟩ <;> rw [h2]
    · rw [if_pos hp]
    · simp
    · simp
    · simp
    · simp
  · have h1 : parsePhase args bt = ([], none) := by
      unfold parsePhase
      rw [if_neg hp]
    have hcrit := criticLoop_snd args.n_agents (criticMaskSum args.n_agents bt)
      ((List.range (bt.max_seq_length - 1)).reverse)
    rw [any_rev] at hcrit
    by_cases hC : ((List.range (bt.max_seq_length - 1)).any
        (fun t => !(decide (criticMaskSum args.n_agents bt t = 0)))) = true
    · rw [hC, if_pos rfl] at hcrit
      have h2 : trainRun args bt =
          ((criticPhase args bt).1,
            some (if args.n_agents = 1 ∨ args.n_agents = 2 then
              PyErr.nameError else PyErr.runtimeError)) := by
        unfold trainRun
        rw [h1, pseq_nil,
          pseq_some _ (show (criticPhase args bt).2 = _ from hcrit)]
      refine ⟨?_, ?_, ?_, ?_, ?_⟩ <;> rw [h2]
      · rw [if_neg hp, if_pos hC]
      · simp [criticPhase]
      · simp [criticPhase]
      · simp [criticPhase]
      · simp [criticPhase]
    · rw [Bool.not_eq_true] at hC
      rw [hC] at hcrit
      simp only [Bool.false_eq_true, if_false] at hcrit
      have hC' : ¬ (((List.range (bt.max_seq_length - 1)).any
          (fun t => !(decide (criticMaskSum args.n_agents bt t = 0)))) = true) := by
        simp [hC]
      by_cases hT : 2 ≤ bt.max_seq_length - 1
      · have hid : identifierPhase bt = ([], some PyErr.runtimeError) := by
          unfold identifierPhase
          rw [if_pos hT]
        have h2 : trainRun args bt =
            ((criticPhase args bt).1 ++ [], some PyErr.runtimeError) := by
          unfold trainRun
          rw [h1, hid, pseq_nil, pseq_some _
              (rfl : (([] : List TrainEvent), some PyErr.runtimeError).2 =
                some PyErr.runtimeError),
            pseq_none _ (show (criticPhase args bt).2 = none from hcrit)]
        refine ⟨?_, ?_, ?_, ?_, ?_⟩ <;> rw [h2]
        · rw [if_neg hp, if_neg hC', if_pos hT]
        · simp [criticPhase]
        · simp [criticPhase]
        · simp [criticPhase]
        · simp [criticPhase]
      · have hid : identifierPhase bt =
            ([TrainEvent.identifierOptStep], none) := by
          unfold identifierPhase
          rw [if_neg hT]
        have h2 : trainRun args bt =
            ((criticPhase args bt).1 ++
                ([TrainEvent.identifierOptStep] ++ []),
              some PyErr.attributeError) := by
          unfold trainRun
          rw [h1, hid, pseq_nil, pseq_some _
              (rfl : (([] : List TrainEvent), some PyErr.attributeError).2 =
                some PyErr.attributeError),
            pseq_none _ (rfl : (([TrainEvent.identifierOptStep],
              (none : Option PyErr))).2 = none),
            pseq_none _ (show (criticPhase args bt).2 = none from hcrit)]
        refine ⟨?_, ?_, ?_, ?_, ?_⟩ <;> rw [h2]
        · rw [if_neg hp, if_neg hC', if_neg hT]
        · simp [criticPhase]
        · simp [criticPhase]
        · simp [criticPhase]
        · simp [criticPhase]

end BFTRF
